import Mathlib

/-!
Verification development for the LeeJS_class front-end scripts
(src/user.js, src/admin.js and the unnamed earlier variants).

The JavaScript is shallowly embedded: each event handler becomes a pure
Lean function from the relevant page state and a description of the
network outcome (what fetch returned, whether the response was OK, what
the body parsed to) to the requests it issues, the new page state and the
messages it renders.  DOM plumbing (element lookup, scrolling, typing
indicator, blob download mechanics) is not modelled; the data flow is.
-/

/-- Models JavaScript String.prototype.trim on the main whitespace code
points (space, tab, LF, VT, FF, CR, NBSP, line/paragraph separator, BOM). -/
def jsWhitespaceChar (c : Char) : Bool :=
  c.toNat = 32 || c.toNat = 9 || c.toNat = 10 || c.toNat = 13 || c.toNat = 11 ||
  c.toNat = 12 || c.toNat = 160 || c.toNat = 8232 || c.toNat = 8233 || c.toNat = 65279

/-- Models the JavaScript call s.trim(). -/
def jsTrim (s : String) : String :=
  ⟨(((s.data.dropWhile jsWhitespaceChar).reverse).dropWhile jsWhitespaceChar).reverse⟩

/-- One {role, content} pair of the conversation history (src/user.js). -/
structure HistEntry where
  role : String
  content : String
deriving DecidableEq

/-- Cap on the conversation history, src/user.js line 10. -/
def MAX_HISTORY_MESSAGES : Nat := 20

/-- pushHistory from src/user.js lines 159-164: push the {role, content}
pair; if the length exceeds the cap, splice(0, length - cap) removes the
excess entries from the front. -/
def pushHistory (hist : List HistEntry) (role content : String) : List HistEntry :=
  let h := hist ++ [{ role := role, content := content }]
  if MAX_HISTORY_MESSAGES < h.length then h.drop (h.length - MAX_HISTORY_MESSAGES) else h

/-- The history produced by a sequence of pushHistory calls starting from
the initial empty conversationHistory array. -/
def runHistory (ps : List (String × String)) : List HistEntry :=
  ps.foldl (fun h p => pushHistory h p.1 p.2) []

theorem pushHistory_of_le (hist : List HistEntry) (r c : String)
    (h : hist.length ≤ MAX_HISTORY_MESSAGES) :
    pushHistory hist r c =
      (hist ++ [HistEntry.mk r c]).drop (hist.length + 1 - MAX_HISTORY_MESSAGES) := by
  simp only [pushHistory, MAX_HISTORY_MESSAGES, List.length_append, List.length_cons,
    List.length_nil] at *
  split
  · rfl
  · next hge =>
    have h0 : hist.length + 1 - 20 = 0 := by omega
    simp [h0]

theorem foldl_pushHistory (ps : List (String × String)) :
    ∀ acc : List HistEntry, acc.length ≤ MAX_HISTORY_MESSAGES →
      ps.foldl (fun h p => pushHistory h p.1 p.2) acc =
        (acc ++ ps.map fun p => HistEntry.mk p.1 p.2).drop
          (acc.length + ps.length - MAX_HISTORY_MESSAGES) := by
  induction ps with
  | nil =>
    intro acc h
    simp only [MAX_HISTORY_MESSAGES] at h
    simp [MAX_HISTORY_MESSAGES, Nat.sub_eq_zero_of_le h]
  | cons p ps ih =>
    intro acc hacc
    have hacc20 : acc.length ≤ 20 := by simpa [MAX_HISTORY_MESSAGES] using hacc
    rw [List.foldl_cons, pushHistory_of_le _ _ _ hacc]
    have hlen : ((acc ++ [HistEntry.mk p.1 p.2]).drop
        (acc.length + 1 - MAX_HISTORY_MESSAGES)).length ≤ MAX_HISTORY_MESSAGES := by
      simp [MAX_HISTORY_MESSAGES, List.length_drop, List.length_append]
      omega
    rw [ih _ hlen]
    have hj : acc.length + 1 - MAX_HISTORY_MESSAGES ≤
        (acc ++ [HistEntry.mk p.1 p.2]).length := by
      simp [MAX_HISTORY_MESSAGES, List.length_append]
      omega
    rw [← List.drop_append_of_le_length hj, List.drop_drop]
    have hassoc : (acc ++ [HistEntry.mk p.1 p.2]) ++
        (ps.map fun q => HistEntry.mk q.1 q.2) =
        acc ++ ((p :: ps).map fun q => (HistEntry.mk q.1 q.2 : HistEntry)) := by
      simp


    rw [hassoc]
    congr 1
    simp [MAX_HISTORY_MESSAGES, List.length_drop, List.length_append]
    omega

/-- C1: starting from the empty history, any sequence of pushHistory calls
leaves the conversation history equal to the most recently pushed
{role, content} pairs in their original insertion order (all but the first
length - 20 pairs), and in particular its length never exceeds the cap of 20. -/
theorem pushHistory_cap_and_order (ps : List (String × String)) :
    runHistory ps =
      (ps.map fun p => HistEntry.mk p.1 p.2).drop
        (ps.length - MAX_HISTORY_MESSAGES) ∧
    (runHistory ps).length ≤ MAX_HISTORY_MESSAGES := by
  have h := foldl_pushHistory ps [] (by simp [MAX_HISTORY_MESSAGES])
  simp only [List.nil_append, List.length_nil, Nat.zero_add] at h
  refine ⟨by simpa [runHistory] using h, ?_⟩
  rw [runHistory, h]
  simp [MAX_HISTORY_MESSAGES, List.length_drop]
  omega

/-- Result of parsing a response body with res.json(): either the parse
rejects (malformed JSON) with an error message, or it yields a value. -/
inductive JsonParse (α : Type) where
  | malformed (msg : String)
  | parsed (val : α)
deriving DecidableEq

/-- Outcome of one fetch call, as observed by the script: either fetch
itself rejects with an error message, or a response arrives carrying its
numeric status, its ok flag, its body text (res.text()) and the body as
seen by the script's parser of choice. -/
inductive FetchOutcome (β : Type) where
  | throws (msg : String)
  | response (status : Nat) (ok : Bool) (text : String) (body : β)
deriving DecidableEq

/-- JS truthiness on the ok flag of a fetch outcome: a thrown fetch never
reaches the ok test. -/
def fetchOk : FetchOutcome β → Bool
  | .throws _ => false
  | .response _ ok _ _ => ok

/-- The kb object sent in the chat request body (src/user.js lines 74-75). -/
structure KbParams where
  enabled : Bool
  query : String
  topK : Nat
deriving DecidableEq

/-- The POST /api/chat request built by sendQuestion in src/user.js:
url, method, headers and the JSON body fields.  The imageDataUrl key is
omitted (none) when the script passes undefined; the history key always
carries the current conversationHistory array. -/
structure ChatRequest where
  url : String
  method : String
  contentType : String
  xUserPassword : String
  user : String
  kb : KbParams
  imageDataUrl : Option String
  history : List HistEntry
deriving DecidableEq

/-- The page state read and written by the src/user.js handlers: the two
input fields' current values, the pending image attachment and the
conversation history. -/
structure ChatState where
  passwordValue : String
  questionValue : String
  selectedImageDataUrl : String
  selectedImageName : String
  conversationHistory : List HistEntry
deriving DecidableEq

/-- What parsing the chat response yields: the optional content field of
the response JSON (none when the field is absent). -/
abbrev ChatNet := FetchOutcome (JsonParse (Option String))

/-- Models the JS expression json.content line's fallback: an absent or
empty (falsy) content field is displayed as the fixed text No response. -/
def chatContentOrDefault : Option String → String
  | some c => if c = "" then "No response." else c
  | none => "No response."

/-- The question sendQuestion works with (src/user.js lines 46-48): the
trimmed question input, or the fixed text Describe this image. when that
is empty but an image is attached, or the empty string. -/
def effectiveQuestion (s : ChatState) : String :=
  let typedQuestion := jsTrim s.questionValue
  if typedQuestion ≠ "" then typedQuestion
  else if s.selectedImageDataUrl ≠ "" then "Describe this image." else ""

/-- The chat request sendQuestion issues when it is not blocked
(src/user.js lines 69-80), built from the pre-call page state. -/
def chatRequest (s : ChatState) : ChatRequest :=
  { url := "/api/chat", method := "POST", contentType := "application/json",
    xUserPassword := jsTrim s.passwordValue,
    user := effectiveQuestion s,
    kb := { enabled := true, query := effectiveQuestion s, topK := 6 },
    imageDataUrl := if s.selectedImageDataUrl = "" then none
      else some s.selectedImageDataUrl,
    history := s.conversationHistory }

/-- Everything one sendQuestion invocation does that we model: the request
it issued (none when blocked), the page state it leaves behind, the bot
messages it appended, and the user bubble it showed. -/
structure SendResult where
  request : Option ChatRequest
  state : ChatState
  botMessages : List String
  userMessageShown : Option String
deriving DecidableEq

/-- sendQuestion from src/user.js lines 44-99.  Guards on the trimmed
password and on the effective question; otherwise shows the user bubble,
clears the question and image fields, issues the chat request and handles
the outcome: a thrown fetch, a non-OK response or a malformed JSON body
lands in the catch block, and only a parsed OK response pushes the
user/assistant pair onto the history. -/
def sendQuestion (s : ChatState) (net : ChatNet) : SendResult :=
  let password := jsTrim s.passwordValue
  let question := effectiveQuestion s
  if password = "" then
    { request := none, state := s,
      botMessages := ["비밀번호를 입력하세요."], userMessageShown := none }
  else if question = "" then
    { request := none, state := s,
      botMessages := ["질문을 입력하세요."], userMessageShown := none }
  else
    let req := chatRequest s
    let s1 : ChatState :=
      { s with questionValue := "", selectedImageDataUrl := "", selectedImageName := "" }
    match net with
    | .throws msg =>
      { request := some req, state := s1,
        botMessages := ["Failed: " ++ msg], userMessageShown := some question }
    | .response status ok text body =>
      if ok then
        match body with
        | .malformed msg =>
          { request := some req, state := s1,
            botMessages := ["Failed: " ++ msg], userMessageShown := some question }
        | .parsed content =>
          let shown := chatContentOrDefault content
          let hist2 :=
            pushHistory (pushHistory s.conversationHistory "user" question)
              "assistant" shown
          { request := some req,
            state := { s1 with conversationHistory := hist2 },
            botMessages := [shown], userMessageShown := some question }
      else
        { request := some req, state := s1,
          botMessages := ["Failed: " ++ toString status ++ " " ++ text],
          userMessageShown := some question }

/-- A chat network outcome counts as a success exactly when the response
is OK and its body parses. -/
def chatNetSuccess : ChatNet → Bool
  | .response _ true _ (.parsed _) => true
  | _ => false

/-- The assistant text a successful chat outcome displays and records. -/
def chatNetContent : ChatNet → String
  | .response _ _ _ (.parsed c) => chatContentOrDefault c
  | _ => ""

theorem sendQuestion_request_eq (s : ChatState) (net : ChatNet)
    (hp : jsTrim s.passwordValue ≠ "") (hq : effectiveQuestion s ≠ "") :
    (sendQuestion s net).request = some (chatRequest s) := by
  cases net with
  | throws m => simp [sendQuestion, hp, hq]
  | response st ok tx bd => cases ok <;> cases bd <;> simp [sendQuestion, hp, hq]

/-- C5: whenever sendQuestion is not blocked, the request it issues is a
POST to /api/chat with the X-User-Password header set to the trimmed
password, a JSON body whose user field is the submitted question and whose
kb object is enabled with the same question as query and topK 6; the
imageDataUrl key is included exactly when an image is attached, and the
history key carries the current conversation history. -/
theorem sendQuestion_request_shape (s : ChatState) (net : ChatNet)
    (hp : jsTrim s.passwordValue ≠ "") (hq : effectiveQuestion s ≠ "") :
    (sendQuestion s net).request = some
      { url := "/api/chat", method := "POST", contentType := "application/json",
        xUserPassword := jsTrim s.passwordValue,
        user := effectiveQuestion s,
        kb := { enabled := true, query := effectiveQuestion s, topK := 6 },
        imageDataUrl := if s.selectedImageDataUrl = "" then none
          else some s.selectedImageDataUrl,
        history := s.conversationHistory } := by
  rw [sendQuestion_request_eq s net hp hq]
  rfl

/-- Witness for C5 at a concrete page state: password pw, question hi,
no image, empty history. -/
theorem sendQuestion_request_shape_witness :
    (sendQuestion
      { passwordValue := "pw", questionValue := "hi", selectedImageDataUrl := "",
        selectedImageName := "", conversationHistory := [] }
      (.throws "x")).request = some
      { url := "/api/chat", method := "POST", contentType := "application/json",
        xUserPassword := "pw", user := "hi",
        kb := { enabled := true, query := "hi", topK := 6 },
        imageDataUrl := none, history := [] } := by
  rw [sendQuestion_request_shape
    { passwordValue := "pw", questionValue := "hi", selectedImageDataUrl := "",
      selectedImageName := "", conversationHistory := [] }
    (.throws "x") (by decide) (by decide)]
  decide

/-- Counterexample to C3 as stated: with an image attached, a trimmed-empty
question input does not block the submission, so a request is issued even
though the trimmed question is empty. -/
theorem sendQuestion_empty_question_not_blocked_cex :
    jsTrim " " = "" ∧
    ((sendQuestion
      { passwordValue := "pw", questionValue := " ",
        selectedImageDataUrl := "data:image/png;base64,AAAA",
        selectedImageName := "a.png", conversationHistory := [] }
      (.throws "x")).request).isSome = true := by decide

/-- C3 (amended): if the trimmed password is empty, or the trimmed question
input is empty and no image is attached, sendQuestion blocks the
submission: no request is issued, a prompt message is shown, and the page
state (input fields, image selection and history) is left unchanged. -/
theorem sendQuestion_blocked (s : ChatState) (net : ChatNet)
    (h : jsTrim s.passwordValue = "" ∨
      (jsTrim s.questionValue = "" ∧ s.selectedImageDataUrl = "")) :
    (sendQuestion s net).request = none ∧
    (sendQuestion s net).state = s ∧
    (sendQuestion s net).botMessages =
      [if jsTrim s.passwordValue = "" then "비밀번호를 입력하세요."
       else "질문을 입력하세요."] ∧
    (sendQuestion s net).userMessageShown = none := by
  rcases h with h1 | ⟨h2, h3⟩
  · simp [sendQuestion, h1]
  · have hq : effectiveQuestion s = "" := by simp [effectiveQuestion, h2, h3]
    by_cases h1 : jsTrim s.passwordValue = ""
    · simp [sendQuestion, h1]
    · simp [sendQuestion, h1, hq]

/-- Witness for the amended C3 at a concrete page state: whitespace-only
password blocks the submission with the password prompt. -/
theorem sendQuestion_blocked_witness :
    (sendQuestion
      { passwordValue := " ", questionValue := "hi", selectedImageDataUrl := "",
        selectedImageName := "", conversationHistory := [] }
      (.throws "x")).request = none ∧
    (sendQuestion
      { passwordValue := " ", questionValue := "hi", selectedImageDataUrl := "",
        selectedImageName := "", conversationHistory := [] }
      (.throws "x")).botMessages = ["비밀번호를 입력하세요."] := by
  have h := sendQuestion_blocked
    { passwordValue := " ", questionValue := "hi", selectedImageDataUrl := "",
      selectedImageName := "", conversationHistory := [] }
    (.throws "x") (Or.inl (by decide))
  refine ⟨h.1, ?_⟩
  rw [h.2.2.1]
  decide

/-- C9: with a non-empty trimmed password, a trimmed-empty question input
and an image attached, sendQuestion proceeds: it issues a request whose
user field and kb query are both the fixed text Describe this image., and
which carries the attached image. -/
theorem sendQuestion_image_default_question (s : ChatState) (net : ChatNet)
    (hp : jsTrim s.passwordValue ≠ "") (hq : jsTrim s.questionValue = "")
    (hi : s.selectedImageDataUrl ≠ "") :
    ∃ req, (sendQuestion s net).request = some req ∧
      req.user = "Describe this image." ∧
      req.kb.query = "Describe this image." ∧
      req.imageDataUrl = some s.selectedImageDataUrl := by
  have hq' : effectiveQuestion s = "Describe this image." := by
    simp [effectiveQuestion, hq, hi]
  refine ⟨chatRequest s, sendQuestion_request_eq s net hp (by rw [hq']; decide), ?_, ?_, ?_⟩
  · simp [chatRequest, hq']
  · simp [chatRequest, hq']
  · simp [chatRequest, hi]

/-- Witness for C9 at a concrete page state: empty question input with an
attached image yields the fixed Describe this image. question. -/
theorem sendQuestion_image_default_question_witness :
    ∃ req, (sendQuestion
      { passwordValue := "pw", questionValue := " ",
        selectedImageDataUrl := "data:image/png;base64,AAAA",
        selectedImageName := "a.png", conversationHistory := [] }
      (.throws "x")).request = some req ∧
      req.user = "Describe this image." ∧
      req.kb.query = "Describe this image." ∧
      req.imageDataUrl = some "data:image/png;base64,AAAA" :=
  sendQuestion_image_default_question
    { passwordValue := "pw", questionValue := " ",
      selectedImageDataUrl := "data:image/png;base64,AAAA",
      selectedImageName := "a.png", conversationHistory := [] }
    (.throws "x") (by decide) (by decide) (by decide)

/-- C8: the conversation history after a sendQuestion invocation: it is
unchanged whenever the submission was blocked or the request failed (fetch
threw, the response was non-OK, or its body did not parse), and exactly
when the request succeeded it gains the user entry for the question
followed by the assistant entry for the displayed answer. -/
theorem sendQuestion_history_update (s : ChatState) (net : ChatNet) :
    (sendQuestion s net).state.conversationHistory =
      if jsTrim s.passwordValue ≠ "" ∧ effectiveQuestion s ≠ "" ∧
          chatNetSuccess net = true then
        pushHistory (pushHistory s.conversationHistory "user" (effectiveQuestion s))
          "assistant" (chatNetContent net)
      else s.conversationHistory := by
  by_cases h1 : jsTrim s.passwordValue = ""
  · simp [sendQuestion, h1]
  · by_cases h2 : effectiveQuestion s = ""
    · simp [sendQuestion, h1, h2]
    · cases net with
      | throws m => simp [sendQuestion, h1, h2, chatNetSuccess]
      | response st ok tx bd =>
        cases ok <;> cases bd <;>
          simp [sendQuestion, h1, h2, chatNetSuccess, chatNetContent]

/-- Uppercase hexadecimal digits used by percent-encoding. -/
def hexDigits : List Char :=
  ['0', '1', '2', '3', '4', '5', '6', '7', '8', '9', 'A', 'B', 'C', 'D', 'E', 'F']

/-- Percent-encoding of one byte, as %XX with uppercase hex. -/
def byteHex (n : Nat) : String :=
  ⟨['%', hexDigits.getD (n / 16 % 16) '0', hexDigits.getD (n % 16) '0']⟩

/-- UTF-8 encoding of one Unicode scalar value as a byte list. -/
def utf8Bytes (n : Nat) : List Nat :=
  if n < 128 then [n]
  else if n < 2048 then [192 + n / 64, 128 + n % 64]
  else if n < 65536 then [224 + n / 4096, 128 + n / 64 % 64, 128 + n % 64]
  else [240 + n / 262144, 128 + n / 4096 % 64, 128 + n / 64 % 64, 128 + n % 64]

/-- The characters encodeURIComponent leaves unescaped. -/
def uriUnreserved (c : Char) : Bool :=
  c.isAlphanum || c = '-' || c = '_' || c = '.' || c = '!' || c = '~' ||
  c = '*' || c = Char.ofNat 39 || c = Char.ofNat 40 || c = Char.ofNat 41

/-- Models the JavaScript encodeURIComponent function: unreserved
characters pass through, every other character is replaced by the
percent-encoding of its UTF-8 bytes. -/
def encodeURIComponent (s : String) : String :=
  String.join (s.data.map fun c =>
    if uriUnreserved c then String.singleton c
    else String.join ((utf8Bytes c.toNat).map byteHex))

/-- The base64 alphabet used by btoa. -/
def b64Char (n : Nat) : Char :=
  "ABCDEFGHIJKLMNOPQRSTUVWXYZabcdefghijklmnopqrstuvwxyz0123456789+/".data.getD n 'A'

/-- Models the browser btoa function on a binary string given as its list
of character codes (each below 256): standard base64 with padding. -/
def btoa : List Nat → String
  | [] => ""
  | [a] =>
    ⟨[b64Char (a / 4), b64Char (a % 4 * 16), Char.ofNat 61, Char.ofNat 61]⟩
  | [a, b] =>
    ⟨[b64Char (a / 4), b64Char (a % 4 * 16 + b / 16), b64Char (b % 16 * 4),
      Char.ofNat 61]⟩
  | a :: b :: c :: rest =>
    (⟨[b64Char (a / 4), b64Char (a % 4 * 16 + b / 16),
       b64Char (b % 16 * 4 + c / 64), b64Char (c % 64)]⟩ : String) ++ btoa rest

/-- The chunked loop of fileToBase64 in src/admin.js: the binary string is
assembled from subarrays of 0x8000 bytes at a time. -/
def chunkLoop (l : List Nat) : List Nat :=
  if h : l = [] then []
  else l.take 32768 ++ chunkLoop (l.drop 32768)
termination_by l.length
decreasing_by
  simp [List.length_drop]
  have : 0 < l.length := List.length_pos.mpr h
  omega

/-- fileToBase64 from src/admin.js lines 245-257: read the file bytes,
assemble the binary string chunk by chunk, and base64-encode it. -/
def fileToBase64 (bytes : List Nat) : String :=
  btoa (chunkLoop bytes)

/-- A file chosen in the admin upload picker: its name and its bytes. -/
structure JsFileBytes where
  name : String
  content : List Nat
deriving DecidableEq

/-- A JavaScript number as saveLimit sees it: NaN, an infinity, or a
finite value (represented exactly as a rational; the float rounding of the
source text is irrelevant to the integrality and range tests modelled
here). -/
inductive JsNum where
  | nan
  | posInf
  | negInf
  | num (q : ℚ)
deriving DecidableEq

/-- Models Number.isInteger: true exactly for finite integral values. -/
def jsIsInteger : JsNum → Bool
  | .num q => q.den == 1
  | _ => false

/-- Models the JavaScript comparison a < b on numbers: false whenever
either side is NaN. -/
def jsLt : JsNum → JsNum → Bool
  | .num a, .num b => decide (a < b)
  | .negInf, .num _ => true
  | .num _, .posInf => true
  | .negInf, .posInf => true
  | _, _ => false

/-- The body of an admin request, by endpoint. -/
inductive AdminBody where
  | noBody
  | binaryFile (bytes : List Nat)
  | uploadJson (filename : String) (contentBase64 : String)
  | limitJson (maxAnswerChars : JsNum)
  | promptJson (defaultPrompt : String)
deriving DecidableEq

/-- One HTTP request issued by src/admin.js: url, method, the headers the
script sets and the body it sends. -/
structure AdminRequest where
  url : String
  method : String
  contentType : Option String
  xAdminToken : String
  xFilename : Option String
  body : AdminBody
deriving DecidableEq

/-- The raw-binary upload request of uploadSingleFile (src/admin.js lines
108-117): POST /api/admin/upload-binary with the octet-stream body and the
percent-encoded filename header. -/
def binaryUploadRequest (token : String) (f : JsFileBytes) : AdminRequest :=
  { url := "/api/admin/upload-binary", method := "POST",
    contentType := some "application/octet-stream", xAdminToken := token,
    xFilename := some (encodeURIComponent f.name), body := .binaryFile f.content }

/-- The base64 JSON fallback request of uploadSingleFile (src/admin.js
lines 126-136): POST /api/admin/upload with the filename and the base64
file content in the JSON body. -/
def fallbackUploadRequest (token : String) (f : JsFileBytes) : AdminRequest :=
  { url := "/api/admin/upload", method := "POST",
    contentType := some "application/json", xAdminToken := token,
    xFilename := none, body := .uploadJson f.name (fileToBase64 f.content) }

/-- uploadSingleFile from src/admin.js lines 107-142: try the raw-binary
upload; if that fetch throws or the response is non-OK, fall back to the
base64 JSON upload, whose failure (thrown fetch or non-OK response)
propagates as the error the caller records.  Returns the requests issued
in order and the overall outcome. -/
def uploadSingleFile (token : String) (f : JsFileBytes)
    (binNet fbNet : FetchOutcome Unit) : List AdminRequest × Except String Unit :=
  let binReq := binaryUploadRequest token f
  let fbReq := fallbackUploadRequest token f
  let fallback : Except String Unit :=
    match fbNet with
    | .throws m => .error m
    | .response status ok text _ =>
      if ok then .ok () else .error (toString status ++ " " ++ text)
  match binNet with
  | .throws _ => ([binReq, fbReq], fallback)
  | .response _ ok _ _ =>
    if ok then ([binReq], .ok ()) else ([binReq, fbReq], fallback)

/-- C2: uploadSingleFile always issues the raw-binary request first, and
it issues the base64 JSON fallback request if and only if the binary
attempt fails (the fetch throws or the response is non-OK); when the
binary attempt succeeds no fallback request is made and the upload
reports success. -/
theorem uploadSingleFile_fallback_iff (token : String) (f : JsFileBytes)
    (binNet fbNet : FetchOutcome Unit) :
    (uploadSingleFile token f binNet fbNet).1 =
      (if fetchOk binNet then [binaryUploadRequest token f]
       else [binaryUploadRequest token f, fallbackUploadRequest token f]) ∧
    (fetchOk binNet = true →
      (uploadSingleFile token f binNet fbNet).2 = .ok ()) := by
  cases binNet with
  | throws m => simp [uploadSingleFile, fetchOk]
  | response st ok tx u => cases ok <;> simp [uploadSingleFile, fetchOk]

/-- Witness for C2 at concrete inputs: a successful binary attempt issues
exactly the one binary request and succeeds. -/
theorem uploadSingleFile_fallback_iff_witness :
    (uploadSingleFile "tok" { name := "a.txt", content := [104, 105] }
      (.response 200 true "" ()) (.throws "unused")).1 =
      [binaryUploadRequest "tok" { name := "a.txt", content := [104, 105] }] ∧
    (uploadSingleFile "tok" { name := "a.txt", content := [104, 105] }
      (.response 200 true "" ()) (.throws "unused")).2 = .ok () := by
  have h := uploadSingleFile_fallback_iff "tok"
    { name := "a.txt", content := [104, 105] }
    (.response 200 true "" ()) (.throws "unused")
  refine ⟨?_, h.2 (by decide)⟩
  rw [h.1]
  decide

/-- Result of one admin action that writes the status output: the request
it issued (none when it returned early) and the text it left in the
status element. -/
structure AdminActionResult where
  request : Option AdminRequest
  statusText : String
deriving DecidableEq

/-- The parsed body of GET /api/admin/kb-status: the chunks count and the
file list. -/
structure KbStatus where
  chunks : Nat
  files : List String
deriving DecidableEq

/-- loadStatus from src/admin.js lines 30-50: with an empty trimmed token
it only shows the token prompt; otherwise it issues the kb-status GET and
renders the chunk count and file list, or a Failed message carrying the
thrown error, the non-OK status and body text, or the JSON parse error. -/
def loadStatus (tokenValue : String)
    (net : FetchOutcome (JsonParse KbStatus)) : AdminActionResult :=
  let token := jsTrim tokenValue
  if token = "" then
    { request := none, statusText := "Admin Token을 입력한 뒤 Refresh를 누르세요." }
  else
    let req : AdminRequest :=
      { url := "/api/admin/kb-status", method := "GET", contentType := none,
        xAdminToken := token, xFilename := none, body := .noBody }
    match net with
    | .throws m => { request := some req, statusText := "Failed: " ++ m }
    | .response status ok text body =>
      if ok then
        match body with
        | .malformed m => { request := some req, statusText := "Failed: " ++ m }
        | .parsed kb =>
          let joined := String.intercalate "\n- " kb.files
          { request := some req,
            statusText := "Chunks: " ++ toString kb.chunks ++ "\nFiles:\n- " ++
              (if joined = "" then "(none)" else joined) }
      else
        { request := some req,
          statusText := "Failed: " ++ toString status ++ " " ++ text }

/-- The parsed body of GET /api/admin/config: the two optional fields the
script reads. -/
structure ConfigJson where
  maxAnswerChars : Option Int
  defaultPrompt : Option String
deriving DecidableEq

/-- Result of loadConfig: the request it issued and the new values it
wrote into the two form fields (none when left untouched).  loadConfig
never writes the status output. -/
structure LoadConfigResult where
  request : Option AdminRequest
  maxAnswerCharsValue : Option Int
  defaultPromptValue : Option String
deriving DecidableEq

/-- loadConfig from src/admin.js lines 52-70: with an empty trimmed token
it returns silently; it issues the config GET, and on a non-OK response it
returns silently with no message (the catch comment says to keep the UI
usable even if the config fetch fails); only a parsed OK response writes
the two form fields.  No path writes the status output. -/
def loadConfig (tokenValue : String)
    (net : FetchOutcome (JsonParse ConfigJson)) : LoadConfigResult :=
  let token := jsTrim tokenValue
  if token = "" then
    { request := none, maxAnswerCharsValue := none, defaultPromptValue := none }
  else
    let req : AdminRequest :=
      { url := "/api/admin/config", method := "GET", contentType := none,
        xAdminToken := token, xFilename := none, body := .noBody }
    match net with
    | .throws _ =>
      { request := some req, maxAnswerCharsValue := none, defaultPromptValue := none }
    | .response _ ok _ body =>
      if ok then
        match body with
        | .malformed _ =>
          { request := some req, maxAnswerCharsValue := none,
            defaultPromptValue := none }
        | .parsed cfg =>
          { request := some req,
            maxAnswerCharsValue := some (cfg.maxAnswerChars.getD 0),
            defaultPromptValue := some (cfg.defaultPrompt.getD "") }
      else
        { request := some req, maxAnswerCharsValue := none,
          defaultPromptValue := none }

/-- saveLimit from src/admin.js lines 144-175: after the token check, the
parsed numeric value of the maxAnswerChars field is validated to be an
integer between 0 and 20000, and the config POST is only issued when the
validation passes; a thrown fetch, a non-OK response or a malformed JSON
body yields a Failed message, and success echoes the server's value.  The
JsNum argument is the value of Number applied to the field text (or to the
string 0 when the field is empty). -/
def saveLimit (tokenValue : String) (maxAnswerCharsValue : JsNum)
    (net : FetchOutcome (JsonParse (Option Int))) : AdminActionResult :=
  let token := jsTrim tokenValue
  if token = "" then
    { request := none, statusText := "Admin Token을 먼저 입력하세요." }
  else
    let value := maxAnswerCharsValue
    if !(jsIsInteger value) || jsLt value (.num 0) || jsLt (.num 20000) value then
      { request := none,
        statusText := "MAX_ANSWER_CHARS는 0~20000 정수만 가능합니다." }
    else
      let req : AdminRequest :=
        { url := "/api/admin/config", method := "POST",
          contentType := some "application/json", xAdminToken := token,
          xFilename := none, body := .limitJson value }
      match net with
      | .throws m => { request := some req, statusText := "Failed: " ++ m }
      | .response status ok text body =>
        if ok then
          match body with
          | .malformed m => { request := some req, statusText := "Failed: " ++ m }
          | .parsed mac =>
            { request := some req,
              statusText := "MAX_ANSWER_CHARS updated: " ++
                (match mac with | some i => toString i | none => "undefined") }
        else
          { request := some req,
            statusText := "Failed: " ++ toString status ++ " " ++ text }

/-- savePrompt from src/admin.js lines 177-205: guards on the trimmed
token and the trimmed prompt, issues the config POST with the prompt, and
reports Failed with the thrown error or the status and body text, or the
fixed success message (the response body is never parsed). -/
def savePrompt (tokenValue promptValue : String)
    (net : FetchOutcome Unit) : AdminActionResult :=
  let token := jsTrim tokenValue
  let prompt := jsTrim promptValue
  if token = "" then
    { request := none, statusText := "Admin Token을 먼저 입력하세요." }
  else if prompt = "" then
    { request := none, statusText := "Prompt를 입력하세요." }
  else
    let req : AdminRequest :=
      { url := "/api/admin/config", method := "POST",
        contentType := some "application/json", xAdminToken := token,
        xFilename := none, body := .promptJson prompt }
    match net with
    | .throws m => { request := some req, statusText := "Failed: " ++ m }
    | .response status ok text _ =>
      if ok then { request := some req, statusText := "Default prompt updated." }
      else
        { request := some req,
          statusText := "Failed: " ++ toString status ++ " " ++ text }

/-- downloadFeedback from src/admin.js lines 207-233: guards on the
trimmed token, issues the feedback-download GET, and reports the fixed
success message or a download-failure message carrying the thrown error or
the status and body text.  The blob and anchor mechanics of the success
path are browser effects outside this model. -/
def downloadFeedback (tokenValue : String)
    (net : FetchOutcome Unit) : AdminActionResult :=
  let token := jsTrim tokenValue
  if token = "" then
    { request := none, statusText := "Admin Token을 먼저 입력하세요." }
  else
    let req : AdminRequest :=
      { url := "/api/admin/feedback-download", method := "GET",
        contentType := none, xAdminToken := token, xFilename := none,
        body := .noBody }
    match net with
    | .throws m => { request := some req, statusText := "다운로드 실패: " ++ m }
    | .response status ok text _ =>
      if ok then
        { request := some req, statusText := "feedback.jsonl 다운로드 완료" }
      else
        { request := some req,
          statusText := "다운로드 실패: " ++ toString status ++ " " ++ text }

/-- The POST /api/feedback request built by submitFeedback in src/user.js. -/
structure FeedbackRequest where
  url : String
  method : String
  contentType : String
  xUserPassword : String
  question : String
  badAnswer : String
  correction : String
deriving DecidableEq

/-- submitFeedback from src/user.js lines 166-197: guards on the trimmed
password, then on the prompt result (cancelled, empty or trim-empty input
returns silently), issues the feedback POST with the trimmed correction,
and reports the fixed success message or a save-failure message carrying
the thrown error or the status and body text. -/
def submitFeedback (passwordValue question badAnswer : String)
    (promptResult : Option String)
    (net : FetchOutcome Unit) : Option FeedbackRequest × List String :=
  let password := jsTrim passwordValue
  if password = "" then (none, ["수정요청 전 비밀번호를 입력하세요."])
  else
    match promptResult with
    | none => (none, [])
    | some correction =>
      if correction = "" || jsTrim correction = "" then (none, [])
      else
        let req : FeedbackRequest :=
          { url := "/api/feedback", method := "POST",
            contentType := "application/json", xUserPassword := password,
            question := question, badAnswer := badAnswer,
            correction := jsTrim correction }
        match net with
        | .throws m => (some req, ["수정요청 저장 실패: " ++ m])
        | .response status ok text _ =>
          if ok then (some req, ["수정요청이 저장되었습니다. 다음 답변부터 반영됩니다."])
          else (some req, ["수정요청 저장 실패: " ++ toString status ++ " " ++ text])

/-- A file chosen in the chat image picker: its name, MIME type, byte size
and the data URL a successful FileReader read yields. -/
structure JsImageFile where
  name : String
  type : String
  size : Nat
  readerResult : String
deriving DecidableEq

/-- fileToDataUrl from src/user.js lines 199-213: rejects a file whose
MIME type does not start with image/ or whose size exceeds 4 * 1024 * 1024
bytes; otherwise the FileReader either resolves to the data URL or rejects
with the read-failure message (readOk says which). -/
def fileToDataUrl (f : JsImageFile) (readOk : Bool) : Except String String :=
  if ¬ (f.type.startsWith "image/") then
    .error "이미지 파일만 업로드할 수 있습니다."
  else if f.size > 4 * 1024 * 1024 then
    .error "이미지는 4MB 이하만 가능합니다."
  else if readOk then .ok f.readerResult
  else .error "이미지를 읽을 수 없습니다."

/-- The image-selection state the change handler leaves behind and the bot
messages it appended. -/
structure ImageChangeResult where
  selectedImageDataUrl : String
  selectedImageName : String
  botMessages : List String
deriving DecidableEq

/-- The try/catch around the fileToDataUrl call in the change handler
(src/user.js lines 20-28): a successful read stores the data URL and file
name and announces the attachment; any error resets both selection
variables to the empty string and announces the failure. -/
def imageReadOutcome (f : JsImageFile) (r : Except String String) : ImageChangeResult :=
  match r with
  | .ok url =>
    { selectedImageDataUrl := url, selectedImageName := f.name,
      botMessages := ["이미지 첨부됨: " ++ f.name] }
  | .error msg =>
    { selectedImageDataUrl := "", selectedImageName := "",
      botMessages := ["이미지 처리 실패: " ++ msg] }

/-- The change handler on the image file input, src/user.js lines 15-29:
no chosen file leaves the selection untouched; otherwise the handler acts
on the fileToDataUrl outcome via imageReadOutcome. -/
def imageFileChange (curUrl curName : String) (file : Option JsImageFile)
    (readOk : Bool) : ImageChangeResult :=
  match file with
  | none => { selectedImageDataUrl := curUrl, selectedImageName := curName,
              botMessages := [] }
  | some f => imageReadOutcome f (fileToDataUrl f readOk)


/-- True exactly when a fileToDataUrl outcome is the thrown-error case. -/
def exceptIsError : Except String String → Bool
  | .error _ => true
  | .ok _ => false

theorem fileToDataUrl_ok (f : JsImageFile) (ht : f.type.startsWith "image/" = true)
    (hs : f.size ≤ 4 * 1024 * 1024) :
    fileToDataUrl f true = .ok f.readerResult := by
  unfold fileToDataUrl
  rw [if_neg (by simp [ht]), if_neg (by omega), if_pos rfl]

theorem fileToDataUrl_error_type (f : JsImageFile) (readOk : Bool)
    (ht : f.type.startsWith "image/" = false) :
    fileToDataUrl f readOk = .error "이미지 파일만 업로드할 수 있습니다." := by
  unfold fileToDataUrl
  rw [if_pos (by simp [ht])]

theorem fileToDataUrl_error_size (f : JsImageFile) (readOk : Bool)
    (ht : f.type.startsWith "image/" = true) (hs : 4 * 1024 * 1024 < f.size) :
    fileToDataUrl f readOk = .error "이미지는 4MB 이하만 가능합니다." := by
  unfold fileToDataUrl
  rw [if_neg (by simp [ht]), if_pos hs]

theorem fileToDataUrl_error_read (f : JsImageFile)
    (ht : f.type.startsWith "image/" = true) (hs : f.size ≤ 4 * 1024 * 1024) :
    fileToDataUrl f false = .error "이미지를 읽을 수 없습니다." := by
  unfold fileToDataUrl
  rw [if_neg (by simp [ht]), if_neg (by omega), if_neg (by simp)]

/-- C10: fileToDataUrl throws exactly when the chosen file's MIME type does
not start with image/, or its size exceeds 4 * 1024 * 1024 bytes, or the
read itself fails; and the change handler stores the data URL and file name
on success while on any such error it resets selectedImageDataUrl and
selectedImageName to the empty string, so no image is attached to the next
submission. -/
theorem fileToDataUrl_error_iff (f : JsImageFile) (readOk : Bool)
    (curUrl curName : String) :
    exceptIsError (fileToDataUrl f readOk) =
      (!(f.type.startsWith "image/") || decide (4 * 1024 * 1024 < f.size) || !readOk) ∧
    (imageFileChange curUrl curName (some f) readOk).selectedImageDataUrl =
      (if f.type.startsWith "image/" && decide (f.size ≤ 4 * 1024 * 1024) && readOk
       then f.readerResult else "") ∧
    (imageFileChange curUrl curName (some f) readOk).selectedImageName =
      (if f.type.startsWith "image/" && decide (f.size ≤ 4 * 1024 * 1024) && readOk
       then f.name else "") := by
  by_cases ht : f.type.startsWith "image/" = true
  · by_cases hs : f.size ≤ 4 * 1024 * 1024
    · cases readOk
      · simp [imageFileChange, imageReadOutcome, exceptIsError,
          fileToDataUrl_error_read f ht hs, ht, hs, Nat.not_lt.mpr hs]
      · simp [imageFileChange, imageReadOutcome, exceptIsError,
          fileToDataUrl_ok f ht hs, ht, hs, Nat.not_lt.mpr hs]
    · have hs' : 4 * 1024 * 1024 < f.size := Nat.not_le.mp hs
      simp [imageFileChange, imageReadOutcome, exceptIsError,
        fileToDataUrl_error_size f readOk ht hs', ht, hs, hs']
  · have ht' : f.type.startsWith "image/" = false := by
      cases hb : f.type.startsWith "image/"
      · rfl
      · exact absurd hb ht
    simp [imageFileChange, imageReadOutcome, exceptIsError,
      fileToDataUrl_error_type f readOk ht', ht']

/-- Counterexample to C4 as stated: loadConfig issues the config GET, the
response is non-OK, and the operation produces no visible failure message
at all, leaving both form fields untouched (its result has no message
output because src/admin.js lines 63-64 silently return on a non-OK
response). -/
theorem loadConfig_silent_failure_cex :
    (loadConfig "tok" (.response 500 false "boom" (.malformed "x"))) =
      { request := some
          { url := "/api/admin/config", method := "GET", contentType := none,
            xAdminToken := "tok", xFilename := none, body := .noBody },
        maxAnswerCharsValue := none, defaultPromptValue := none } := by decide

/-- C4 (amended): every operation that issues an HTTP request and surfaces
failures, which is all of them except loadConfig (silent by design) and a
non-OK binary upload attempt masked by a successful base64 fallback, turns
a non-OK response into a visible failure message consisting of a fixed
prefix, the numeric status code, a space and the response body text; for a
file upload whose decisive attempt is non-OK, that same status-and-text
message is the error uploadFiles records and displays. -/
theorem nonOk_failure_message (st : Nat) (tx : String) :
    (∀ (s : ChatState) (bd : JsonParse (Option String)),
      jsTrim s.passwordValue ≠ "" → effectiveQuestion s ≠ "" →
      (sendQuestion s (.response st false tx bd)).botMessages =
        ["Failed: " ++ toString st ++ " " ++ tx]) ∧
    (∀ (pw q ba corr : String),
      jsTrim pw ≠ "" → corr ≠ "" → jsTrim corr ≠ "" →
      (submitFeedback pw q ba (some corr) (.response st false tx ())).2 =
        ["수정요청 저장 실패: " ++ toString st ++ " " ++ tx]) ∧
    (∀ (t : String) (bd : JsonParse KbStatus),
      jsTrim t ≠ "" →
      (loadStatus t (.response st false tx bd)).statusText =
        "Failed: " ++ toString st ++ " " ++ tx) ∧
    (∀ (t : String) (v : JsNum) (bd : JsonParse (Option Int)),
      jsTrim t ≠ "" →
      (!(jsIsInteger v) || jsLt v (.num 0) || jsLt (.num 20000) v) = false →
      (saveLimit t v (.response st false tx bd)).statusText =
        "Failed: " ++ toString st ++ " " ++ tx) ∧
    (∀ (t p : String),
      jsTrim t ≠ "" → jsTrim p ≠ "" →
      (savePrompt t p (.response st false tx ())).statusText =
        "Failed: " ++ toString st ++ " " ++ tx) ∧
    (∀ (t : String),
      jsTrim t ≠ "" →
      (downloadFeedback t (.response st false tx ())).statusText =
        "다운로드 실패: " ++ toString st ++ " " ++ tx) ∧
    (∀ (t : String) (f : JsFileBytes) (bn : FetchOutcome Unit),
      fetchOk bn = false →
      (uploadSingleFile t f bn (.response st false tx ())).2 =
        .error (toString st ++ " " ++ tx)) := by
  refine ⟨?_, ?_, ?_, ?_, ?_, ?_, ?_⟩
  · intro s bd hp hq
    cases bd <;> simp [sendQuestion, hp, hq]
  · intro pw q ba corr hp hc1 hc2
    simp [submitFeedback, hp, hc1, hc2]
  · intro t bd ht
    cases bd <;> simp [loadStatus, ht]
  · intro t v bd ht hv
    cases bd <;> simp [saveLimit, ht, hv]
  · intro t p ht hp
    simp [savePrompt, ht, hp]
  · intro t ht
    simp [downloadFeedback, ht]
  · intro t f bn hbn
    cases bn with
    | throws m => simp [uploadSingleFile]
    | response st2 ok2 tx2 u =>
      simp [fetchOk] at hbn
      simp [uploadSingleFile, hbn]

/-- Witness for the amended C4 at concrete inputs: status 500, body boom,
for each of the seven operations. -/
theorem nonOk_failure_message_witness :
    (sendQuestion
      { passwordValue := "pw", questionValue := "hi", selectedImageDataUrl := "",
        selectedImageName := "", conversationHistory := [] }
      (.response 500 false "boom" (.malformed "m"))).botMessages =
      ["Failed: " ++ toString 500 ++ " " ++ "boom"] ∧
    (submitFeedback "pw" "q" "a" (some "fix") (.response 500 false "boom" ())).2 =
      ["수정요청 저장 실패: " ++ toString 500 ++ " " ++ "boom"] ∧
    (loadStatus "tok" (.response 500 false "boom" (.malformed "m"))).statusText =
      "Failed: " ++ toString 500 ++ " " ++ "boom" ∧
    (saveLimit "tok" (.num 100) (.response 500 false "boom" (.malformed "m"))).statusText =
      "Failed: " ++ toString 500 ++ " " ++ "boom" ∧
    (savePrompt "tok" "hello" (.response 500 false "boom" ())).statusText =
      "Failed: " ++ toString 500 ++ " " ++ "boom" ∧
    (downloadFeedback "tok" (.response 500 false "boom" ())).statusText =
      "다운로드 실패: " ++ toString 500 ++ " " ++ "boom" ∧
    (uploadSingleFile "tok" { name := "a.txt", content := [1, 2] }
      (.throws "x") (.response 500 false "boom" ())).2 =
      .error (toString 500 ++ " " ++ "boom") := by
  refine ⟨(nonOk_failure_message 500 "boom").1 _ _ (by decide) (by decide),
    (nonOk_failure_message 500 "boom").2.1 _ _ _ _ (by decide) (by decide) (by decide),
    (nonOk_failure_message 500 "boom").2.2.1 _ _ (by decide),
    (nonOk_failure_message 500 "boom").2.2.2.1 _ _ _ (by decide) (by decide),
    (nonOk_failure_message 500 "boom").2.2.2.2.1 _ _ (by decide) (by decide),
    (nonOk_failure_message 500 "boom").2.2.2.2.2.1 _ (by decide),
    (nonOk_failure_message 500 "boom").2.2.2.2.2.2 _ _ _ (by decide)⟩

/-- Counterexample to C6 as stated: with a non-empty token and the form
value 20001, saveLimit rejects the input on range grounds before issuing
any request, so the client does perform payload validation beyond status
checks. -/
theorem saveLimit_range_validation_cex :
    (saveLimit "tok" (.num 20001) (.throws "x")).request = none ∧
    (saveLimit "tok" (.num 20001) (.throws "x")).statusText =
      "MAX_ANSWER_CHARS는 0~20000 정수만 가능합니다." := by decide

/-- C6 (amended): apart from saveLimit, which refuses to issue its request
unless the maxAnswerChars value is an integer between 0 and 20000, the
client performs no validation of request payloads: saveLimit issues its
request exactly when that check passes, while every other request-issuing
operation (savePrompt, sendQuestion, loadStatus, loadConfig,
downloadFeedback, submitFeedback with a non-empty correction, and
uploadSingleFile for any file whatsoever) issues its request for every
non-empty (trimmed) inputs without any shape or range check. -/
theorem saveLimit_only_validation :
    (∀ (t : String) (v : JsNum) (net : FetchOutcome (JsonParse (Option Int))),
      jsTrim t ≠ "" →
      (saveLimit t v net).request.isSome =
        (jsIsInteger v && !(jsLt v (.num 0)) && !(jsLt (.num 20000) v))) ∧
    (∀ (t p : String) (net : FetchOutcome Unit),
      jsTrim t ≠ "" → jsTrim p ≠ "" →
      (savePrompt t p net).request.isSome = true) ∧
    (∀ (s : ChatState) (net : ChatNet),
      jsTrim s.passwordValue ≠ "" → effectiveQuestion s ≠ "" →
      (sendQuestion s net).request.isSome = true) ∧
    (∀ (t : String) (net : FetchOutcome (JsonParse KbStatus)),
      jsTrim t ≠ "" →
      (loadStatus t net).request.isSome = true) ∧
    (∀ (t : String) (net : FetchOutcome (JsonParse ConfigJson)),
      jsTrim t ≠ "" →
      (loadConfig t net).request.isSome = true) ∧
    (∀ (t : String) (net : FetchOutcome Unit),
      jsTrim t ≠ "" →
      (downloadFeedback t net).request.isSome = true) ∧
    (∀ (pw q ba corr : String) (net : FetchOutcome Unit),
      jsTrim pw ≠ "" → corr ≠ "" → jsTrim corr ≠ "" →
      (submitFeedback pw q ba (some corr) net).1.isSome = true) ∧
    (∀ (t : String) (f : JsFileBytes) (bn fn : FetchOutcome Unit),
      (uploadSingleFile t f bn fn).1.head? =
        some (binaryUploadRequest t f)) := by
  refine ⟨?_, ?_, ?_, ?_, ?_, ?_, ?_, ?_⟩
  · intro t v net ht
    by_cases hval : (!(jsIsInteger v) || jsLt v (JsNum.num 0) ||
        jsLt (JsNum.num 20000) v) = true
    · have h2 : (jsIsInteger v && !(jsLt v (JsNum.num 0)) &&
          !(jsLt (JsNum.num 20000) v)) = false := by
        revert hval
        cases jsIsInteger v <;> cases jsLt v (JsNum.num 0) <;>
          cases jsLt (JsNum.num 20000) v <;> simp
      simp [saveLimit, ht, hval, h2]
    · have hval' : (!(jsIsInteger v) || jsLt v (JsNum.num 0) ||
          jsLt (JsNum.num 20000) v) = false := by
        revert hval
        cases jsIsInteger v <;> cases jsLt v (JsNum.num 0) <;>
          cases jsLt (JsNum.num 20000) v <;> simp
      have h2 : (jsIsInteger v && !(jsLt v (JsNum.num 0)) &&
          !(jsLt (JsNum.num 20000) v)) = true := by
        revert hval'
        cases jsIsInteger v <;> cases jsLt v (JsNum.num 0) <;>
          cases jsLt (JsNum.num 20000) v <;> simp
      cases net with
      | throws m => simp [saveLimit, ht, hval', h2]
      | response st2 ok2 tx2 bd => cases ok2 <;> cases bd <;>
          simp [saveLimit, ht, hval', h2]
  · intro t p net ht hp
    cases net with
    | throws m => simp [savePrompt, ht, hp]
    | response st2 ok2 tx2 u => cases ok2 <;> simp [savePrompt, ht, hp]
  · intro s net hp hq
    rw [sendQuestion_request_eq s net hp hq]
    rfl
  · intro t net ht
    cases net with
    | throws m => simp [loadStatus, ht]
    | response st2 ok2 tx2 bd => cases ok2 <;> cases bd <;> simp [loadStatus, ht]
  · intro t net ht
    cases net with
    | throws m => simp [loadConfig, ht]
    | response st2 ok2 tx2 bd => cases ok2 <;> cases bd <;> simp [loadConfig, ht]
  · intro t net ht
    cases net with
    | throws m => simp [downloadFeedback, ht]
    | response st2 ok2 tx2 u => cases ok2 <;> simp [downloadFeedback, ht]
  · intro pw q ba corr net hp hc1 hc2
    cases net with
    | throws m => simp [submitFeedback, hp, hc1, hc2]
    | response st2 ok2 tx2 u => cases ok2 <;> simp [submitFeedback, hp, hc1, hc2]
  · intro t f bn fn
    cases bn with
    | throws m => simp [uploadSingleFile]
    | response st2 ok2 tx2 u => cases ok2 <;> simp [uploadSingleFile]

/-- Witness for the amended C6 at concrete inputs: the valid value 100 is
sent, and the non-empty concrete inputs of the other seven operations
always produce their request. -/
theorem saveLimit_only_validation_witness :
    (saveLimit "tok" (.num 100) (.throws "x")).request.isSome = true ∧
    (savePrompt "tok" "hello" (.throws "x")).request.isSome = true ∧
    (sendQuestion
      { passwordValue := "pw", questionValue := "hi", selectedImageDataUrl := "",
        selectedImageName := "", conversationHistory := [] }
      (.throws "x")).request.isSome = true ∧
    (loadStatus "tok" (.throws "x")).request.isSome = true ∧
    (loadConfig "tok" (.throws "x")).request.isSome = true ∧
    (downloadFeedback "tok" (.throws "x")).request.isSome = true ∧
    (submitFeedback "pw" "q" "a" (some "fix") (.throws "x")).1.isSome = true ∧
    (uploadSingleFile "tok" { name := "a.txt", content := [1, 2] }
      (.throws "x") (.throws "y")).1.head? =
      some (binaryUploadRequest "tok" { name := "a.txt", content := [1, 2] }) := by
  refine ⟨?_, ?_, ?_, ?_, ?_, ?_, ?_, ?_⟩
  · rw [saveLimit_only_validation.1 "tok" (.num 100) (.throws "x") (by decide)]
    decide
  · exact saveLimit_only_validation.2.1 "tok" "hello" (.throws "x") (by decide) (by decide)
  · exact saveLimit_only_validation.2.2.1 _ _ (by decide) (by decide)
  · exact saveLimit_only_validation.2.2.2.1 "tok" (.throws "x") (by decide)
  · exact saveLimit_only_validation.2.2.2.2.1 "tok" (.throws "x") (by decide)
  · exact saveLimit_only_validation.2.2.2.2.2.1 "tok" (.throws "x") (by decide)
  · exact saveLimit_only_validation.2.2.2.2.2.2.1 "pw" "q" "a" "fix" (.throws "x")
      (by decide) (by decide) (by decide)
  · exact saveLimit_only_validation.2.2.2.2.2.2.2 "tok"
      { name := "a.txt", content := [1, 2] } (.throws "x") (.throws "y")
